import Mathlib

/-
Formal model of the SCD-40 environmental monitor firmware (main.py).

The firmware is a single sequential supervisory loop over four mutable
globals (wifi_error_state, mqtt_error_state, wifi_reconnect_attempt_count,
mqtt_reconnect_attempt_count).  Each pass of the while-True loop is one
tick; the tick reads the environment (WiFi link status, reconnect
outcomes, publish outcomes, a sensor reading) and updates the globals.

The embedding below is a direct translation of the source:
  - LoopState holds the four globals with their source names.
  - TickEnv packs the external observations one tick can make.
  - tick mirrors lines 268-366 of main.py branch by branch.
  - pollLoopAux models the sleep-based polling loops of connect_wifi
    (lines 125-139, timeout 15 s polled every 0.5 s, so checks at poll
    indices 0..31 in half-second units) and of wifi_reconnect_attempt
    (lines 169-176, timeout 10 s with a 1.4 s LED pattern plus 0.5 s
    sleep per iteration, so the break condition elapsed greater than 10
    in tenths of seconds is 19 * k greater than 100, i.e. checks at poll
    indices 0..6).
  - ledErrorRun models led_error (lines 58-66): a while-True loop that
    blinks the code and never returns; the fuel argument counts loop
    iterations performed so far and the Option component records whether
    the call has returned (it never does).
  - startup models the straight-line startup code, lines 216-260.
Timing of sleeps is abstracted to the poll-index arithmetic above; real
time, the I2C wire protocol and the MQTT wire format are outside the
model.  Publishes are recorded as attempted (topic, payload) pairs; the
environment says whether each attempt succeeds.
-/

/-- One entry of WIFI_NETWORKS from config.py. -/
structure Network where
  ssid : String
  password : String
deriving DecidableEq

/-- Visible LED actions of the error-blink routines. -/
inductive LedAct where
  | on
  | off
  | pause
deriving DecidableEq

/-- One pass of the while-True body of led_error (lines 60-66): code
blinks of 0.2 s on / 0.2 s off, then a 1 s break. -/
def ledErrorCycle (code : Nat) : List LedAct :=
  (List.replicate code [LedAct.on, LedAct.off]).flatten ++ [LedAct.pause]

/-- Fueled run of led_error (lines 58-66).  The loop guard is the
literal True and the body contains no break or return, so for every
fuel the Option component is none: the call has not returned. -/
def ledErrorRun (code : Nat) : Nat → (List LedAct × Option Unit)
  | 0 => ([], none)
  | n + 1 =>
    let r := ledErrorRun code n
    (ledErrorCycle code ++ r.1, r.2)

/-- The status-polling while loop shared by connect_wifi and
wifi_reconnect_attempt: at poll index k the loop first checks
isconnected; if connected it exits with success, otherwise when the
timeout has elapsed (rem = 0) it breaks and the final isconnected
re-check at the same instant yields the connection status.  rem is the
number of polls remaining before the timeout condition holds. -/
def pollLoopAux (conn : Nat → Bool) : Nat → Nat → Bool
  | k, 0 => conn k
  | k, rem + 1 => if conn k then true else pollLoopAux conn (k + 1) rem

/-- Polling loop entered at index 0 whose timeout break fires at poll
index limit + 1 (the source condition elapsed greater than timeout). -/
def pollLoop (conn : Nat → Bool) (limit : Nat) : Bool :=
  pollLoopAux conn 0 (limit + 1)

/-- Result of connect_wifi (lines 103-151): the wlan handle is
abstracted away, so the pair (wlan, network_info) becomes the network
alone and (None, None) becomes none.  timeoutCycles counts candidates
that ran their full timeout window without connecting. -/
structure ConnectWifiOut where
  connected : Option Network
  timeoutCycles : Nat
  loggedExhaustion : Bool
deriving DecidableEq

/-- connect_wifi (lines 103-151): try each candidate in order; poll
isconnected every 0.5 s until connected or elapsed greater than 15 s
(poll indices 0..31, limit 30 in half-second units); return the first
candidate that reaches connected state, else log the exhaustion event
and fail.  conn n k says whether candidate n reports isconnected at its
poll index k. -/
def connect_wifi (conn : Network → Nat → Bool) : List Network → ConnectWifiOut
  | [] => { connected := none, timeoutCycles := 0, loggedExhaustion := true }
  | n :: rest =>
    if pollLoop (conn n) 30 then
      { connected := some n, timeoutCycles := 0, loggedExhaustion := false }
    else
      let r := connect_wifi conn rest
      { connected := r.connected
        timeoutCycles := r.timeoutCycles + 1
        loggedExhaustion := r.loggedExhaustion }

/-- Result of wifi_reconnect_attempt: success flag, whether the failure
was logged, and the ssids passed to wlan.connect during the call. -/
structure ReconnectOut where
  success : Bool
  loggedFailure : Bool
  connectTargets : List String
deriving DecidableEq

/-- wifi_reconnect_attempt (lines 153-189): a single wlan.connect to
the given network, then the polling loop with timeout 10 s where each
iteration lasts 1.9 s (led_error_pattern 1.4 s plus sleep 0.5 s), so the
break condition elapsed greater than 10 fires at poll index 6 (limit 5);
returns isconnected at loop exit and logs on failure. -/
def wifi_reconnect_attempt (net : Network) (conn : Nat → Bool) : ReconnectOut :=
  { success := pollLoop conn 5
    loggedFailure := !(pollLoop conn 5)
    connectTargets := [net.ssid] }

/-- mqtt_reconnect_attempt (lines 192-213): returns False immediately
when the WiFi link is down, otherwise succeeds exactly when the fresh
MQTTClient connect does not raise. -/
def mqtt_reconnect_attempt (wlanConnected mqttConnectOk : Bool) : Bool :=
  if !wlanConnected then false else mqttConnectOk

/-- A sensor reading as returned by sensor.read_measurement, before the
rounding applied on lines 336-337.  Temperatures and humidities are
modelled as rationals; binary floating point is outside the model. -/
structure Measurement where
  co2 : Int
  temp : Rat
  rh : Rat
deriving DecidableEq

/-- Rounding to 2 decimals (lines 336-337; ties of the float round are
abstracted to round half away from the even-tie behaviour). -/
def round2 (q : Rat) : Rat :=
  ((round (q * 100) : Int) : Rat) / 100

/-- Publish topics: telemetry is MQTT_TOPIC (sensors/scd40), events is
the fixed literal sensors/scd40/events. -/
inductive Topic where
  | telemetry
  | events
deriving DecidableEq

/-- Payloads the loop publishes (the JSON encoding is abstracted to the
fields it carries). -/
inductive Pub where
  | measurement (co2 : Int) (temp rh : Rat)
  | waitingEvent
  | reconnectedEvent (attempts : Nat)
deriving DecidableEq

/-- The observable connection state of the specification. -/
inductive ConnState where
  | Normal
  | RecoveringLink
  | RecoveringBroker
deriving DecidableEq

/-- The four mutable globals of the main loop (lines 263-266). -/
structure LoopState where
  wifi_error_state : Bool
  mqtt_error_state : Bool
  wifi_reconnect_attempt_count : Nat
  mqtt_reconnect_attempt_count : Nat
deriving DecidableEq

/-- Initial values of the globals (lines 263-266). -/
def initialLoopState : LoopState :=
  { wifi_error_state := false
    mqtt_error_state := false
    wifi_reconnect_attempt_count := 0
    mqtt_reconnect_attempt_count := 0 }

/-- The ConnectionState of the specification read off the globals; WiFi
recovery has priority over broker recovery, matching the branch order of
lines 271 and 302. -/
def observedState (s : LoopState) : ConnState :=
  if s.wifi_error_state then ConnState.RecoveringLink
  else if s.mqtt_error_state then ConnState.RecoveringBroker
  else ConnState.Normal

/-- External observations one tick can make: the top-of-tick
wlan.isconnected value (the link is assumed stable within a tick), the
per-poll connectivity seen by a WiFi reconnect attempt, whether a fresh
MQTT connect would succeed, whether a publish on the events topic or the
telemetry topic would succeed, the sensor reading, and whether some
unclassified exception is raised during the tick. -/
structure TickEnv where
  wlanConnected : Bool
  wifiConn : Nat → Bool
  mqttConnectOk : Bool
  eventPublishOk : Bool
  dataPublishOk : Bool
  sensorReading : Option Measurement
  fault : Bool

/-- How a tick ends: with a next state for the following tick, or stuck
inside led_error code (which never returns, see ledErrorRun). -/
inductive TickResult where
  | next (s : LoopState)
  | hang (code : Nat)
deriving DecidableEq

/-- Trace of one tick: its result, the ConnectionState observed at the
branch-decision point (none when the tick faulted), whether a WiFi or
broker reconnect was attempted, the ssids handed to wlan.connect, the
attempted publishes in order, whether sensor.read_measurement was
called, and whether the outer exception handler logged. -/
structure TickOut where
  result : TickResult
  decisionState : Option ConnState
  wifiReconnectAttempted : Bool
  wifiConnectTargets : List String
  brokerReconnectAttempted : Bool
  publishes : List (Topic × Pub)
  sensorReadAttempted : Bool
  loggedMainLoopError : Bool
deriving DecidableEq

/-- One tick of the main loop (lines 268-366), with net the
successful_network captured at startup (used by line 280).  Branches:
fault handler (363-366, entering led_error 4), WiFi error handling
(271-299), MQTT error handling (302-325), and the normal sampling cycle
(327-361). -/
def tick (net : Network) (s : LoopState) (env : TickEnv) : TickOut :=
  if env.fault then
    { result := TickResult.hang 4
      decisionState := none
      wifiReconnectAttempted := false
      wifiConnectTargets := []
      brokerReconnectAttempted := false
      publishes := []
      sensorReadAttempted := false
      loggedMainLoopError := true }
  else if s.wifi_error_state || !env.wlanConnected then
    let s1 :=
      if !s.wifi_error_state then
        { s with wifi_error_state := true, wifi_reconnect_attempt_count := 0 }
      else s
    let attempt := wifi_reconnect_attempt net env.wifiConn
    if attempt.success then
      let s2 := { s1 with wifi_reconnect_attempt_count := s1.wifi_reconnect_attempt_count + 1 }
      let s3 := { s2 with wifi_error_state := false }
      let s4 :=
        if s3.mqtt_error_state then
          { s3 with mqtt_error_state := false, mqtt_reconnect_attempt_count := 0 }
        else s3
      let s5 := { s4 with wifi_reconnect_attempt_count := 0 }
      { result := TickResult.next s5
        decisionState := some (observedState s1)
        wifiReconnectAttempted := true
        wifiConnectTargets := attempt.connectTargets
        brokerReconnectAttempted := false
        publishes := []
        sensorReadAttempted := false
        loggedMainLoopError := false }
    else
      let s2 := { s1 with wifi_reconnect_attempt_count := s1.wifi_reconnect_attempt_count + 1 }
      { result := TickResult.next s2
        decisionState := some (observedState s1)
        wifiReconnectAttempted := true
        wifiConnectTargets := attempt.connectTargets
        brokerReconnectAttempted := false
        publishes := []
        sensorReadAttempted := false
        loggedMainLoopError := false }
  else if s.mqtt_error_state then
    if mqtt_reconnect_attempt env.wlanConnected env.mqttConnectOk then
      let c := s.mqtt_reconnect_attempt_count + 1
      if env.eventPublishOk then
        { result := TickResult.next
            { s with mqtt_error_state := false, mqtt_reconnect_attempt_count := 0 }
          decisionState := some (observedState s)
          wifiReconnectAttempted := false
          wifiConnectTargets := []
          brokerReconnectAttempted := true
          publishes := [(Topic.events, Pub.reconnectedEvent c)]
          sensorReadAttempted := false
          loggedMainLoopError := false }
      else
        { result := TickResult.next { s with mqtt_reconnect_attempt_count := c }
          decisionState := some (observedState s)
          wifiReconnectAttempted := false
          wifiConnectTargets := []
          brokerReconnectAttempted := true
          publishes := [(Topic.events, Pub.reconnectedEvent c)]
          sensorReadAttempted := false
          loggedMainLoopError := false }
    else
      { result := TickResult.next
          { s with mqtt_reconnect_attempt_count := s.mqtt_reconnect_attempt_count + 1 }
        decisionState := some (observedState s)
        wifiReconnectAttempted := false
        wifiConnectTargets := []
        brokerReconnectAttempted := true
        publishes := []
        sensorReadAttempted := false
        loggedMainLoopError := false }
  else
    match env.sensorReading with
    | some m =>
      if env.dataPublishOk then
        { result := TickResult.next s
          decisionState := some (observedState s)
          wifiReconnectAttempted := false
          wifiConnectTargets := []
          brokerReconnectAttempted := false
          publishes := [(Topic.telemetry, Pub.measurement m.co2 (round2 m.temp) (round2 m.rh))]
          sensorReadAttempted := true
          loggedMainLoopError := false }
      else
        { result := TickResult.next
            { s with mqtt_error_state := true, mqtt_reconnect_attempt_count := 0 }
          decisionState := some (observedState s)
          wifiReconnectAttempted := false
          wifiConnectTargets := []
          brokerReconnectAttempted := false
          publishes := [(Topic.telemetry, Pub.measurement m.co2 (round2 m.temp) (round2 m.rh))]
          sensorReadAttempted := true
          loggedMainLoopError := false }
    | none =>
      if env.eventPublishOk then
        { result := TickResult.next s
          decisionState := some (observedState s)
          wifiReconnectAttempted := false
          wifiConnectTargets := []
          brokerReconnectAttempted := false
          publishes := [(Topic.events, Pub.waitingEvent)]
          sensorReadAttempted := true
          loggedMainLoopError := false }
      else
        { result := TickResult.next
            { s with mqtt_error_state := true, mqtt_reconnect_attempt_count := 0 }
          decisionState := some (observedState s)
          wifiReconnectAttempted := false
          wifiConnectTargets := []
          brokerReconnectAttempted := false
          publishes := [(Topic.events, Pub.waitingEvent)]
          sensorReadAttempted := true
          loggedMainLoopError := false }

/-- Flag-counter coupling maintained by the loop: whenever an error
flag is clear its retry counter is zero. -/
def inv (s : LoopState) : Prop :=
  (s.mqtt_error_state = false → s.mqtt_reconnect_attempt_count = 0) ∧
  (s.wifi_error_state = false → s.wifi_reconnect_attempt_count = 0)

instance (s : LoopState) : Decidable (inv s) := by
  unfold inv
  infer_instance

/-- Environment of the straight-line startup code (lines 216-260). -/
structure StartupEnv where
  nets : List Network
  wifiConn : Network → Nat → Bool
  mqttConnectOk : Bool
  sensorFound : Bool
  sensorInitFault : Bool

/-- Where startup ends: entering the main loop with the successful
network, or stuck inside led_error with the given code. -/
inductive StartupOutcome where
  | mainLoop (net : Network)
  | hang (code : Nat)
deriving DecidableEq

/-- The startup sequence (lines 216-260): connect_wifi, on failure
led_error 1 (never returns); MQTT connect, on exception led_error 2;
sensor init, on exception or missing I2C device 0x62 led_error 3;
otherwise fall through to the main loop. -/
def startup (env : StartupEnv) : StartupOutcome :=
  match (connect_wifi env.wifiConn env.nets).connected with
  | none => StartupOutcome.hang 1
  | some net =>
    if !env.mqttConnectOk then StartupOutcome.hang 2
    else if env.sensorInitFault then StartupOutcome.hang 3
    else if !env.sensorFound then StartupOutcome.hang 3
    else StartupOutcome.mainLoop net

/-- A concrete network used for witnesses. -/
def net0 : Network := { ssid := "home", password := "pw1" }

/-- A second concrete network used for witnesses. -/
def net1 : Network := { ssid := "backup", password := "pw2" }

/-- Connectivity oracle that never reports connected. -/
def connNever : Nat → Bool := fun _ => false

/-- Connectivity oracle that reports connected at once. -/
def connNow : Nat → Bool := fun _ => true

/-- Tick environment: link up, broker reconnect fails, everything else
healthy. -/
def envBrokerFail : TickEnv :=
  { wlanConnected := true
    wifiConn := connNever
    mqttConnectOk := false
    eventPublishOk := true
    dataPublishOk := true
    sensorReading := none
    fault := false }

/-- Tick environment: link up, broker reconnect and publishes succeed. -/
def envBrokerSucc : TickEnv :=
  { wlanConnected := true
    wifiConn := connNever
    mqttConnectOk := true
    eventPublishOk := true
    dataPublishOk := true
    sensorReading := none
    fault := false }

/-- Tick environment in which the tick raises an unclassified fault. -/
def envFault : TickEnv :=
  { wlanConnected := true
    wifiConn := connNever
    mqttConnectOk := true
    eventPublishOk := true
    dataPublishOk := true
    sensorReading := none
    fault := true }

/-- Tick environment: link down and the reconnect attempt fails. -/
def envLinkDownFail : TickEnv :=
  { wlanConnected := false
    wifiConn := connNever
    mqttConnectOk := true
    eventPublishOk := true
    dataPublishOk := true
    sensorReading := none
    fault := false }

/-- Tick environment: link down and the reconnect attempt succeeds. -/
def envLinkDownSucc : TickEnv :=
  { wlanConnected := false
    wifiConn := connNow
    mqttConnectOk := true
    eventPublishOk := true
    dataPublishOk := true
    sensorReading := none
    fault := false }

/-- The state at entry of a broker recovery episode: the flag is set
and the counter was reset by line 351 or 361. -/
def episodeEntry : LoopState :=
  { wifi_error_state := false
    mqtt_error_state := true
    wifi_reconnect_attempt_count := 0
    mqtt_reconnect_attempt_count := 0 }

/-- Next state of a tick, falling back to the input state when the tick
hangs (used only on branches that are shown not to hang). -/
def stepFail (net : Network) (s : LoopState) : LoopState :=
  match (tick net s envBrokerFail).result with
  | TickResult.next s2 => s2
  | TickResult.hang _ => s

/-- State after j consecutive failed broker reconnect attempts of one
recovery episode. -/
def iterFail (net : Network) : Nat → LoopState
  | 0 => episodeEntry
  | j + 1 => stepFail net (iterFail net j)

/-- Startup environment in which WiFi and MQTT come up but the SCD-40
is not found on the I2C bus. -/
def startupEnvSensorMissing : StartupEnv :=
  { nets := [net0]
    wifiConn := fun _ _ => true
    mqttConnectOk := true
    sensorFound := false
    sensorInitFault := false }

/-- The while-True loop of led_error never returns: after any number of
loop iterations the call is still running. -/
theorem ledErrorRun_never_returns (code : Nat) : ∀ n, (ledErrorRun code n).2 = none := by
  intro n
  induction n with
  | zero => rfl
  | succ k ih => simpa [ledErrorRun] using ih

/-- Characterisation of the polling loop: starting at poll index k with
rem polls before the timeout break, the loop exits connected exactly
when some poll index in the window reports connected. -/
theorem pollLoopAux_true_iff (conn : Nat → Bool) (rem : Nat) :
    ∀ k, pollLoopAux conn k rem = true ↔ ∃ j, k ≤ j ∧ j ≤ k + rem ∧ conn j = true := by
  induction rem with
  | zero =>
    intro k
    constructor
    · intro h
      exact ⟨k, Nat.le_refl k, by omega, h⟩
    · rintro ⟨j, h1, h2, h3⟩
      have hj : j = k := by omega
      simpa [pollLoopAux, hj] using h3
  | succ r ih =>
    intro k
    constructor
    · intro h
      by_cases hc : conn k = true
      · exact ⟨k, Nat.le_refl k, by omega, hc⟩
      · rw [pollLoopAux, if_neg hc] at h
        obtain ⟨j, hj1, hj2, hj3⟩ := (ih (k + 1)).1 h
        exact ⟨j, by omega, by omega, hj3⟩
    · rintro ⟨j, hj1, hj2, hj3⟩
      by_cases hc : conn k = true
      · simp [pollLoopAux, hc]
      · rw [pollLoopAux, if_neg hc]
        have hne : k ≠ j := by
          intro e
          exact hc (e ▸ hj3)
        exact (ih (k + 1)).2 ⟨j, by omega, by omega, hj3⟩

/-- The polling loop with break index limit + 1 succeeds exactly when
some poll index up to limit + 1 reports connected. -/
theorem pollLoop_true_iff (conn : Nat → Bool) (limit : Nat) :
    pollLoop conn limit = true ↔ ∃ j, j ≤ limit + 1 ∧ conn j = true := by
  rw [pollLoop, pollLoopAux_true_iff]
  constructor
  · rintro ⟨j, _, h2, h3⟩
    exact ⟨j, by omega, h3⟩
  · rintro ⟨j, h2, h3⟩
    exact ⟨j, by omega, by omega, h3⟩

/-- A candidate whose connectivity never comes up within the window
times out. -/
theorem pollLoop_eq_false (conn : Nat → Bool) (limit : Nat)
    (h : ∀ j, j ≤ limit + 1 → conn j = false) : pollLoop conn limit = false := by
  cases hp : pollLoop conn limit
  · rfl
  · obtain ⟨j, hj1, hj2⟩ := (pollLoop_true_iff conn limit).1 hp
    rw [h j hj1] at hj2
    exact absurd hj2 (by simp)

/-- When every candidate times out, connect_wifi walks the whole list,
counts one timeout cycle per candidate, logs the exhaustion event and
returns the failure pair. -/
theorem connect_wifi_all_timeout (conn : Network → Nat → Bool) :
    ∀ nets : List Network, (∀ n ∈ nets, pollLoop (conn n) 30 = false) →
      connect_wifi conn nets =
        { connected := none, timeoutCycles := nets.length, loggedExhaustion := true } := by
  intro nets
  induction nets with
  | nil => intro _; rfl
  | cons n rest ih =>
    intro h
    have hn : pollLoop (conn n) 30 = false := h n (List.mem_cons_self n rest)
    have hrest := ih (fun p hp => h p (List.mem_cons_of_mem n hp))
    simp [connect_wifi, hn, hrest]

/-- connect_wifi returns the first candidate in list order that reaches
connected state within its window. -/
theorem connect_wifi_first_success (conn : Network → Nat → Bool) (n : Network)
    (post : List Network) (hn : pollLoop (conn n) 30 = true) :
    ∀ pre : List Network, (∀ p ∈ pre, pollLoop (conn p) 30 = false) →
      (connect_wifi conn (pre ++ n :: post)).connected = some n := by
  intro pre
  induction pre with
  | nil => intro _; simp [connect_wifi, hn]
  | cons p pre ih =>
    intro h
    have hp : pollLoop (conn p) 30 = false := h p (List.mem_cons_self p pre)
    have hrest := ih (fun q hq => h q (List.mem_cons_of_mem p hq))
    simp [connect_wifi, hp, hrest]

/-- C5: if all N candidates time out, connect_wifi performs exactly N
bounded timeout cycles, one per candidate in list order, logs the
exhaustion event and returns the failure pair (None, None); a candidate
connects exactly when some poll of its bounded window (indices 0..31 at
0.5 time-unit spacing under the 15 time-unit timeout) reports connected;
and when some candidate connects the result is the first candidate in
order that reaches connected state. -/
theorem c5_bounded_candidate_scan (conn : Network → Nat → Bool) (nets : List Network) :
    ((∀ n ∈ nets, pollLoop (conn n) 30 = false) →
       connect_wifi conn nets =
         { connected := none, timeoutCycles := nets.length, loggedExhaustion := true })
    ∧ (∀ n : Network, pollLoop (conn n) 30 = true ↔ ∃ j, j ≤ 31 ∧ conn n j = true)
    ∧ (∀ pre n post, nets = pre ++ n :: post →
         (∀ p ∈ pre, pollLoop (conn p) 30 = false) →
         pollLoop (conn n) 30 = true →
         (connect_wifi conn nets).connected = some n) := by
  refine ⟨connect_wifi_all_timeout conn nets, ?_, ?_⟩
  · intro n
    simpa using pollLoop_true_iff (conn n) 30
  · rintro pre n post rfl hpre hn
    exact connect_wifi_first_success conn n post hn pre hpre

/-- Witness for C5: two concrete candidates that never connect give two
timeout cycles, the exhaustion log and the failure pair. -/
theorem c5_bounded_candidate_scan_witness :
    connect_wifi (fun _ _ => false) [net0, net1] =
      { connected := none, timeoutCycles := 2, loggedExhaustion := true } :=
  (c5_bounded_candidate_scan (fun _ _ => false) [net0, net1]).1 (by decide)

/-- C6: a link-recovery attempt hands wlan.connect exactly the one
previously successful network, succeeds exactly when some poll index of
its bounded 10 time-unit window (indices 0..6) reports connected,
returns the success flag, logs exactly on failure, and the main loop
passes only the stored successful network to it. -/
theorem c6_reconnect_single_network (net : Network) (conn : Nat → Bool)
    (s : LoopState) (env : TickEnv)
    (hf : env.fault = false)
    (hd : s.wifi_error_state = true ∨ env.wlanConnected = false) :
    (wifi_reconnect_attempt net conn).connectTargets = [net.ssid]
    ∧ ((wifi_reconnect_attempt net conn).success = true ↔ ∃ j, j ≤ 6 ∧ conn j = true)
    ∧ ((wifi_reconnect_attempt net conn).success = false →
        (wifi_reconnect_attempt net conn).loggedFailure = true)
    ∧ ((wifi_reconnect_attempt net conn).success = true →
        (wifi_reconnect_attempt net conn).loggedFailure = false)
    ∧ (tick net s env).wifiConnectTargets = [net.ssid] := by
  have hguard : (s.wifi_error_state || !env.wlanConnected) = true := by
    rcases hd with h | h <;> simp [h]
  refine ⟨rfl, ?_, ?_, ?_, ?_⟩
  · simpa [wifi_reconnect_attempt] using pollLoop_true_iff conn 5
  · intro h
    simp only [wifi_reconnect_attempt] at h ⊢
    simp [h]
  · intro h
    simp only [wifi_reconnect_attempt] at h ⊢
    simp [h]
  · cases ha : pollLoop env.wifiConn 5 <;>
      cases hw : s.wifi_error_state <;>
        cases hl : env.wlanConnected <;>
          simp_all [tick, wifi_reconnect_attempt]

/-- Witness for C6: with a network that never reports connected, the
attempt fails and logs, and a link-down tick passes the stored network. -/
theorem c6_reconnect_single_network_witness :
    (wifi_reconnect_attempt net0 connNever).loggedFailure = true
    ∧ (tick net0 initialLoopState envLinkDownFail).wifiConnectTargets = [net0.ssid] := by
  have h := c6_reconnect_single_network net0 connNever initialLoopState envLinkDownFail
    (by decide) (Or.inr (by decide))
  exact ⟨h.2.2.1 (by decide), h.2.2.2.2⟩

/-- Counterexample for C2: a tick that raises an unclassified fault is
caught and logged and error code 4 is shown, but the tick ends inside
led_error 4, whose while-True loop has still not returned after 100
iterations — the loop does not continue with a next tick. -/
theorem c2_fault_counterexample :
    (tick net0 initialLoopState envFault).result = TickResult.hang 4
    ∧ (tick net0 initialLoopState envFault).loggedMainLoopError = true
    ∧ (ledErrorRun 4 100).2 = none :=
  ⟨by decide, by decide, ledErrorRun_never_returns 4 100⟩

/-- C2 amended: every uncaught fault in a tick is caught at the loop
boundary, logged, and reported via visual code 4; but the code-4
indicator blinks forever (led_error never returns), so the loop never
proceeds to another tick — the process does not terminate, yet it also
does not resume. -/
theorem c2_fault_handler_blinks_forever (net : Network) (s : LoopState) (env : TickEnv)
    (hf : env.fault = true) :
    (tick net s env).result = TickResult.hang 4
    ∧ (tick net s env).loggedMainLoopError = true
    ∧ (∀ n, (ledErrorRun 4 n).2 = none) := by
  refine ⟨?_, ?_, ledErrorRun_never_returns 4⟩ <;> simp [tick, hf]

/-- Witness for the amended C2 at a concrete faulting tick. -/
theorem c2_fault_handler_blinks_forever_witness :
    (tick net1 initialLoopState envFault).result = TickResult.hang 4 :=
  (c2_fault_handler_blinks_forever net1 initialLoopState envFault (by decide)).1

/-- Counterexample for C7: with WiFi and MQTT healthy but the SCD-40
absent from the I2C bus, startup ends inside led_error 3, which has
still not returned after 100 iterations — the main supervisory loop is
never entered. -/
theorem c7_sensor_failure_counterexample :
    startup startupEnvSensorMissing = StartupOutcome.hang 3
    ∧ (ledErrorRun 3 100).2 = none :=
  ⟨by decide, ledErrorRun_never_returns 3 100⟩

/-- C7 amended: if sensor initialization fails at startup (device
absent or init fault) while WiFi and MQTT connect succeeded, the
process shows error code 3 and blinks it forever; the main supervisory
loop is never reached, so sensor failure at startup is fatal to the
process. -/
theorem c7_sensor_failure_hangs (env : StartupEnv) (net : Network)
    (hc : (connect_wifi env.wifiConn env.nets).connected = some net)
    (hm : env.mqttConnectOk = true)
    (hs : env.sensorInitFault = true ∨ env.sensorFound = false) :
    startup env = StartupOutcome.hang 3 ∧ (∀ n, (ledErrorRun 3 n).2 = none) := by
  refine ⟨?_, ledErrorRun_never_returns 3⟩
  rcases hs with h | h
  · simp [startup, hc, hm, h]
  · cases hi : env.sensorInitFault <;> simp [startup, hc, hm, h, hi]

/-- Witness for the amended C7 at the concrete sensor-missing startup. -/
theorem c7_sensor_failure_hangs_witness :
    startup startupEnvSensorMissing = StartupOutcome.hang 3 :=
  (c7_sensor_failure_hangs startupEnvSensorMissing net0 (by decide) (by decide)
    (Or.inr (by decide))).1

/-- C1: when the link is down at the start of a non-faulting tick
(wifi_error_state set or wlan.isconnected false), the tick enters link
recovery: the state observed at the branch decision point is
RecoveringLink regardless of the broker error state, no broker
reconnect is attempted, nothing is published, the sensor is not read,
and if the in-tick reconnect attempt fails the tick also ends in
RecoveringLink. -/
theorem c1_link_down_priority (net : Network) (s : LoopState) (env : TickEnv)
    (hf : env.fault = false)
    (hd : s.wifi_error_state = true ∨ env.wlanConnected = false) :
    (tick net s env).decisionState = some ConnState.RecoveringLink
    ∧ (tick net s env).brokerReconnectAttempted = false
    ∧ (tick net s env).publishes = []
    ∧ (tick net s env).sensorReadAttempted = false
    ∧ ((wifi_reconnect_attempt net env.wifiConn).success = false →
        ∃ s2, (tick net s env).result = TickResult.next s2
          ∧ observedState s2 = ConnState.RecoveringLink) := by
  cases ha : pollLoop env.wifiConn 5 <;>
    cases hw : s.wifi_error_state <;>
      cases hl : env.wlanConnected <;>
        simp_all [tick, wifi_reconnect_attempt, observedState]

/-- Witness for C1 at a concrete link-down tick with a set broker flag. -/
theorem c1_link_down_priority_witness :
    (tick net0 episodeEntry envLinkDownFail).decisionState
      = some ConnState.RecoveringLink
    ∧ (tick net0 episodeEntry envLinkDownFail).brokerReconnectAttempted = false
    ∧ (tick net0 episodeEntry envLinkDownFail).publishes = [] := by
  have h := c1_link_down_priority net0 episodeEntry envLinkDownFail (by decide)
    (Or.inr (by decide))
  exact ⟨h.1, h.2.1, h.2.2.1⟩

/-- C3: a non-faulting tick that starts in RecoveringBroker with the
link healthy reaches Normal exactly when both the broker reconnect and
the recovery-notification publish succeed in that tick; when the
reconnect succeeds but the notification publish fails, the state stays
RecoveringBroker. -/
theorem c3_no_silent_recovery (net : Network) (s : LoopState) (env : TickEnv)
    (hf : env.fault = false) (hw : s.wifi_error_state = false)
    (hl : env.wlanConnected = true) (hm : s.mqtt_error_state = true) :
    ∃ s2, (tick net s env).result = TickResult.next s2
      ∧ (observedState s2 = ConnState.Normal ↔
          (env.mqttConnectOk = true ∧ env.eventPublishOk = true))
      ∧ (env.mqttConnectOk = true → env.eventPublishOk = false →
          s2.mqtt_error_state = true ∧ observedState s2 = ConnState.RecoveringBroker) := by
  cases hc : env.mqttConnectOk <;>
    cases hp : env.eventPublishOk <;>
      simp_all [tick, mqtt_reconnect_attempt, observedState]

/-- Witness for C3 at a concrete recovering-broker tick whose reconnect
and notification publish both succeed. -/
theorem c3_no_silent_recovery_witness :
    ∃ s2, (tick net0 episodeEntry envBrokerSucc).result = TickResult.next s2
      ∧ (observedState s2 = ConnState.Normal ↔
          (envBrokerSucc.mqttConnectOk = true ∧ envBrokerSucc.eventPublishOk = true))
      ∧ (envBrokerSucc.mqttConnectOk = true → envBrokerSucc.eventPublishOk = false →
          s2.mqtt_error_state = true ∧ observedState s2 = ConnState.RecoveringBroker) :=
  c3_no_silent_recovery net0 episodeEntry envBrokerSucc (by decide) (by decide)
    (by decide) (by decide)

/-- C4: a non-faulting tick whose WiFi reconnect attempt succeeds ends
with the broker error flag cleared and the broker retry counter at
zero, even when the broker was never degraded (the reachable-state
coupling inv supplies that a clear flag had a zero counter), and the
tick ends observed Normal. -/
theorem c4_link_recovery_resets_broker (net : Network) (s : LoopState) (env : TickEnv)
    (hf : env.fault = false)
    (hd : s.wifi_error_state = true ∨ env.wlanConnected = false)
    (hinv : inv s)
    (hok : (wifi_reconnect_attempt net env.wifiConn).success = true) :
    ∃ s2, (tick net s env).result = TickResult.next s2
      ∧ s2.mqtt_error_state = false
      ∧ s2.mqtt_reconnect_attempt_count = 0
      ∧ s2.wifi_error_state = false
      ∧ s2.wifi_reconnect_attempt_count = 0
      ∧ observedState s2 = ConnState.Normal := by
  obtain ⟨hinv1, hinv2⟩ := hinv
  cases hm : s.mqtt_error_state <;>
    cases hw : s.wifi_error_state <;>
      cases hl : env.wlanConnected <;>
        simp_all [tick, wifi_reconnect_attempt, observedState]

/-- Witness for C4 at a concrete link-down tick whose reconnect
succeeds while the broker was never degraded. -/
theorem c4_link_recovery_resets_broker_witness :
    ∃ s2, (tick net0 initialLoopState envLinkDownSucc).result = TickResult.next s2
      ∧ s2.mqtt_error_state = false
      ∧ s2.mqtt_reconnect_attempt_count = 0
      ∧ s2.wifi_error_state = false
      ∧ s2.wifi_reconnect_attempt_count = 0
      ∧ observedState s2 = ConnState.Normal :=
  c4_link_recovery_resets_broker net0 initialLoopState envLinkDownSucc (by decide)
    (Or.inr (by decide)) (by decide) (by decide)

/-- C8: a non-faulting Normal-state tick with link and broker healthy
and no sensor data attempts exactly one waiting event publish on the
events topic and no measurement publish; when that publish succeeds the
state is unchanged at Normal, and when it fails the tick ends in
RecoveringBroker. -/
theorem c8_waiting_event_tick (net : Network) (s : LoopState) (env : TickEnv)
    (hf : env.fault = false) (hw : s.wifi_error_state = false)
    (hm : s.mqtt_error_state = false) (hl : env.wlanConnected = true)
    (hr : env.sensorReading = none) :
    (tick net s env).publishes = [(Topic.events, Pub.waitingEvent)]
    ∧ (tick net s env).decisionState = some ConnState.Normal
    ∧ (env.eventPublishOk = true → (tick net s env).result = TickResult.next s)
    ∧ (env.eventPublishOk = false →
        ∃ s2, (tick net s env).result = TickResult.next s2
          ∧ observedState s2 = ConnState.RecoveringBroker) := by
  cases hp : env.eventPublishOk <;> simp_all [tick, observedState]

/-- Witness for C8 at a concrete healthy tick without sensor data. -/
theorem c8_waiting_event_tick_witness :
    (tick net0 initialLoopState envBrokerSucc).publishes
      = [(Topic.events, Pub.waitingEvent)]
    ∧ (tick net0 initialLoopState envBrokerSucc).result
      = TickResult.next initialLoopState := by
  have h := c8_waiting_event_tick net0 initialLoopState envBrokerSucc (by decide)
    (by decide) (by decide) (by decide) (by decide)
  exact ⟨h.1, h.2.2.1 (by decide)⟩

/-- Counterexample for C9: entering broker recovery and reconnecting
successfully on the very first attempt (zero failed attempts) publishes
a reconnection-success event whose attempts field is 1, not the number
of failed attempts 0 — line 306 increments the counter before the exit
publish. -/
theorem c9_exit_event_counterexample :
    (tick net0 episodeEntry envBrokerSucc).publishes
      = [(Topic.events, Pub.reconnectedEvent 1)]
    ∧ Pub.reconnectedEvent 1 ≠ Pub.reconnectedEvent 0 :=
  ⟨by decide, by decide⟩

/-- C9 amended: during a broker recovery episode the retry counter is
exactly the number of failed reconnect attempts so far (zero at entry,
incremented once per failed attempt), and the reconnection-success
event published on exit carries that count plus one — the total number
of reconnect attempts including the final successful one — after which
the counter resets to zero. -/
theorem c9_retry_counter_episode (net : Network) (j : Nat) :
    iterFail net j =
      { wifi_error_state := false
        mqtt_error_state := true
        wifi_reconnect_attempt_count := 0
        mqtt_reconnect_attempt_count := j }
    ∧ (tick net (iterFail net j) envBrokerSucc).publishes
        = [(Topic.events, Pub.reconnectedEvent (j + 1))]
    ∧ (tick net (iterFail net j) envBrokerSucc).result
        = TickResult.next initialLoopState := by
  have hst : iterFail net j =
      { wifi_error_state := false
        mqtt_error_state := true
        wifi_reconnect_attempt_count := 0
        mqtt_reconnect_attempt_count := j } := by
    induction j with
    | zero => rfl
    | succ k ih =>
      simp [iterFail, stepFail, ih, tick, envBrokerFail, mqtt_reconnect_attempt]
  refine ⟨hst, ?_, ?_⟩ <;>
    rw [hst] <;>
      simp [tick, envBrokerSucc, mqtt_reconnect_attempt, initialLoopState]

/-- C10: the loop maintains the coupling that a clear error flag has a
zero retry counter: it holds of the initial state and is preserved by
every tick that reaches a next tick boundary. -/
theorem c10_flag_counter_invariant :
    inv initialLoopState
    ∧ ∀ net s env s2, inv s →
        (tick net s env).result = TickResult.next s2 → inv s2 := by
  constructor
  · exact ⟨fun _ => rfl, fun _ => rfl⟩
  · intro net s env s2 hs hstep
    obtain ⟨h1, h2⟩ := hs
    cases hfa : env.fault <;>
      cases hw : s.wifi_error_state <;>
        cases hm : s.mqtt_error_state <;>
          cases hl : env.wlanConnected <;>
            cases ha : pollLoop env.wifiConn 5 <;>
              cases hr : env.sensorReading <;>
                cases hc : env.mqttConnectOk <;>
                  cases hp : env.eventPublishOk <;>
                    cases hdp : env.dataPublishOk <;>
                      simp_all [tick, wifi_reconnect_attempt, mqtt_reconnect_attempt, inv] <;>
                        (subst hstep; simp_all)

/-- Witness for C10: the invariant transported along a concrete failed
link-recovery tick from the initial state. -/
theorem c10_flag_counter_invariant_witness :
    inv { wifi_error_state := true
          mqtt_error_state := false
          wifi_reconnect_attempt_count := 1
          mqtt_reconnect_attempt_count := 0 } :=
  c10_flag_counter_invariant.2 net0 initialLoopState envLinkDownFail
    { wifi_error_state := true
      mqtt_error_state := false
      wifi_reconnect_attempt_count := 1
      mqtt_reconnect_attempt_count := 0 }
    (by decide) (by decide)
